import Mathlib

/-!
Verification development for the Kernel Execution Orchestrator of the
mstrio-py connector, a shallow embedding of
src/connector-jupyter/production/mstr_jupyter/static/jupyter-kernel.js.

The embedding covers:
 - the result parser (parseResult, lines 373-395), including its payload
   normalization chain and a model of the JSON.parse builtin;
 - the per-submission reply machinery of executePythonCodeInBackground
   (lines 185-252): the solution record, the shell/iopub callbacks, the
   waitForAllCallbacks poller and the deferred result;
 - the correlation-id getter (get id, lines 105-109) and the snapshot
   that executePythonCodeInBackground takes of the instance;
 - the sequencing primitives then / applySameOnEachElement
   (lines 354-366 and 397-409) together with a model of the JS
   microtask/macrotask scheduler;
 - the static awaitAll join in done-flag mode (lines 111-136).
-/

/-- Single-quote character, written via its code point. -/
def sqc : Char := Char.ofNat 39

/-- Opening curly brace character, written via its code point. -/
def lcurly : Char := Char.ofNat 123

/-- Closing curly brace character, written via its code point. -/
def rcurly : Char := Char.ofNat 125

/-- Transcription of the first normalization step of parseResult
(line 379): output.replace with a global single-quote pattern, replacing
every single quote by a double quote. -/
def replaceQuotes (l : List Char) : List Char :=
  l.map (fun c => if c = sqc then '"' else c)

/-- Transcription of the second normalization step of parseResult
(line 380): the global replacement of the three-character sequence
backslash-backslash-doublequote by backslash-doublequote, scanning left
to right without rescanning replacements, as the JS replace does. -/
def collapseEscQuote : List Char → List Char
  | '\\' :: '\\' :: '"' :: rest => '\\' :: '"' :: collapseEscQuote rest
  | c :: rest => c :: collapseEscQuote rest
  | [] => []

/-- Transcription of the third normalization step of parseResult
(line 381): the global replacement of backslash-backslash-slash by a
single forward slash. -/
def collapseEscSlash : List Char → List Char
  | '\\' :: '\\' :: '/' :: rest => '/' :: collapseEscSlash rest
  | c :: rest => c :: collapseEscSlash rest
  | [] => []

/-- Transcription of the quote-stripping step of parseResult (line 382):
if the first character is a double quote, drop the first and the last
character (JS slice with arguments 1 and -1), otherwise keep the text. -/
def stripOuter (l : List Char) : List Char :=
  match l with
  | c :: rest => if c = '"' then rest.dropLast else c :: rest
  | [] => []

/-- Full payload normalization of parseResult (lines 378-382): the three
replacements followed by the conditional strip of one enclosing quote
pair. The result is the toParse value handed to JSON.parse. -/
def normalizePayload (l : List Char) : List Char :=
  stripOuter (collapseEscSlash (collapseEscQuote (replaceQuotes l)))

/-- JSON values, the result type of the JSON.parse model. Numbers are
restricted to integers, which covers every payload in this development. -/
inductive Json where
  | null
  | bool (b : Bool)
  | num (n : Int)
  | str (s : String)
  | arr (elems : List Json)
  | obj (fields : List (String × Json))
deriving Repr

/-- Whitespace skipping of the JSON.parse model. -/
def skipWs : List Char → List Char
  | c :: rest =>
    if c = ' ' ∨ c = '\t' ∨ c = '\n' ∨ c = '\r' then skipWs rest else c :: rest
  | [] => []

/-- Escape sequences accepted inside JSON string literals (without the
unicode form, which no payload here uses). -/
def escChar (e : Char) : Option Char :=
  if e = '"' then some '"'
  else if e = '\\' then some '\\'
  else if e = '/' then some '/'
  else if e = 'n' then some '\n'
  else if e = 't' then some '\t'
  else if e = 'r' then some '\r'
  else if e = 'b' then some (Char.ofNat 8)
  else if e = 'f' then some (Char.ofNat 12)
  else none

/-- Body of a JSON string literal after its opening quote: returns the
decoded characters and the remainder after the closing quote. -/
def parseStringBody : List Char → Option (List Char × List Char)
  | [] => none
  | '"' :: rest => some ([], rest)
  | '\\' :: e :: rest =>
    match escChar e with
    | some c => (parseStringBody rest).map (fun p => (c :: p.1, p.2))
    | none => none
  | c :: rest => (parseStringBody rest).map (fun p => (c :: p.1, p.2))

/-- Longest prefix of decimal digits together with the remainder. -/
def takeDigits : List Char → List Char × List Char
  | c :: rest =>
    if '0' ≤ c ∧ c ≤ '9' then
      let p := takeDigits rest
      (c :: p.1, p.2)
    else ([], c :: rest)
  | [] => ([], [])

/-- Numeric value of a digit list. -/
def digitsToNat (l : List Char) : Nat :=
  l.foldl (fun acc c => acc * 10 + (c.toNat - 48)) 0

mutual

/-- Value parser of the JSON.parse model, fuel-indexed. -/
def parseValue : Nat → List Char → Option (Json × List Char)
  | 0, _ => none
  | fuel + 1, l =>
    match skipWs l with
    | [] => none
    | c :: rest =>
      if c = 'n' then
        match rest with
        | 'u' :: 'l' :: 'l' :: r => some (.null, r)
        | _ => none
      else if c = 't' then
        match rest with
        | 'r' :: 'u' :: 'e' :: r => some (.bool true, r)
        | _ => none
      else if c = 'f' then
        match rest with
        | 'a' :: 'l' :: 's' :: 'e' :: r => some (.bool false, r)
        | _ => none
      else if c = '"' then
        (parseStringBody rest).map (fun p => (.str (String.mk p.1), p.2))
      else if c = '-' then
        match takeDigits rest with
        | ([], _) => none
        | (ds, r) => some (.num (-(Int.ofNat (digitsToNat ds))), r)
      else if '0' ≤ c ∧ c ≤ '9' then
        let p := takeDigits (c :: rest)
        some (.num (Int.ofNat (digitsToNat p.1)), p.2)
      else if c = '[' then
        match skipWs rest with
        | ']' :: r => some (.arr [], r)
        | l2 => (parseArrayItems fuel l2).map (fun p => (.arr p.1, p.2))
      else if c = lcurly then
        match skipWs rest with
        | d :: r =>
          if d = rcurly then some (.obj [], r)
          else (parseObjItems fuel (d :: r)).map (fun p => (.obj p.1, p.2))
        | [] => none
      else none

/-- Comma-separated array items up to the closing bracket. -/
def parseArrayItems : Nat → List Char → Option (List Json × List Char)
  | 0, _ => none
  | fuel + 1, l =>
    match parseValue fuel l with
    | some (v, rest) =>
      match skipWs rest with
      | ',' :: r => (parseArrayItems fuel r).map (fun p => (v :: p.1, p.2))
      | ']' :: r => some ([v], r)
      | _ => none
    | none => none

/-- Comma-separated object fields up to the closing brace. -/
def parseObjItems : Nat → List Char → Option (List (String × Json) × List Char)
  | 0, _ => none
  | fuel + 1, l =>
    match skipWs l with
    | '"' :: r =>
      match parseStringBody r with
      | some (k, r2) =>
        match skipWs r2 with
        | ':' :: r3 =>
          match parseValue fuel r3 with
          | some (v, r4) =>
            match skipWs r4 with
            | d :: r5 =>
              if d = ',' then
                (parseObjItems fuel r5).map
                  (fun p => ((String.mk k, v) :: p.1, p.2))
              else if d = rcurly then some ([(String.mk k, v)], r5)
              else none
            | [] => none
          | none => none
        | _ => none
      | none => none
    | _ => none

end

/-- Model of the JSON.parse builtin used by parseResult (line 384): parse
one value and require only whitespace to remain. -/
def jsonParseChars (l : List Char) : Option Json :=
  match parseValue (l.length + 1) l with
  | some (v, rest) => if skipWs rest = [] then some v else none
  | none => none

/-- Parsed results of parseResult: a JSON-decoded structure when
expectJSON holds, otherwise a plain string. -/
inductive ParsedResult where
  | json (v : Json)
  | str (s : String)
deriving Repr

/-- A shell (completion) reply message: its msg_type and the status
field of its content, the two fields the callback at lines 206-217
inspects. -/
structure ShellMsg where
  msg_type : String
  status : String
deriving Repr, DecidableEq

/-- An iopub (output) reply message: its msg_type, the optional
text-plain entry of content.data, the content.text field, and the
parsed enrichment that line 235 may attach to content.data. -/
structure OutputMsg where
  msg_type : String
  textPlain : Option String
  text : String
  parsed : Option ParsedResult
deriving Repr

/-- Error raised by parseResult (lines 390-394): the catch block logs
the original, untouched result object to the console and throws a fresh
Error with a fixed message. The logged field records the raw payload
surfaced by that diagnostic; the message is the thrown text. The
exception raised by JSON.parse itself is swallowed by the catch and has
no representation here. -/
inductive ParseErr where
  | parseFailure (logged : OutputMsg) (message : String)
deriving Repr

/-- Transcription of parseResult (lines 373-395) applied to an output
reply message. When content.data is present its text-plain payload is
normalized; with expectJSON it is then handed to JSON.parse, otherwise
the normalized, unwrapped string is returned. When content.data is
absent the trimmed content.text is returned. A JSON.parse failure is
caught and replaced by the generic parser error carrying the original
message. -/
def parseResultRaw (expectJSON : Bool) (result : OutputMsg) :
    Except ParseErr ParsedResult :=
  match result.textPlain with
  | some tp =>
    let toParse := normalizePayload tp.data
    if expectJSON then
      match jsonParseChars toParse with
      | some v => .ok (.json v)
      | none =>
        .error (.parseFailure result "JupyterKernel error: result parsing failed")
    else .ok (.str (String.mk toParse))
  | none => .ok (.str result.text.trim)

/-- The per-submission configuration captured by
executePythonCodeInBackground: expectedId is the value of this.id taken
at line 187, thatId is the copy of the instance field made by the object
spread at line 188, and the remaining fields are the snapshot of the
instance configuration the callbacks read. expectStreamIndex uses 0 for
the JS-falsy values undefined and 0. -/
structure SubConfig where
  expectedId : Nat
  thatId : Nat
  codeString : String
  shellOnly : Bool
  expectStreamIndex : Nat
  expectJSON : Bool
  hasCell : Bool
deriving Repr

/-- The solution record of executePythonCodeInBackground (lines
192-195 and 221): code is always present; shell starts null; output is
only a field of the record when the submission is not shell-only
(outer none means the field is absent, some none means null). -/
structure Solution where
  code : String
  shell : Option ShellMsg
  output : Option (Option OutputMsg)
deriving Repr

/-- The JS truthiness test of line 199: every value of the solution
record must be truthy, where the empty string and null are falsy. -/
def solutionFull (sol : Solution) : Bool :=
  (!(sol.code == "")) && sol.shell.isSome &&
    (match sol.output with
     | none => true
     | some o => o.isSome)

/-- State of the deferred result returned by
executePythonCodeInBackground. Resolution carries the solution record;
rejection is either the timeout Error of line 198 (which carries no
code) or the solution record passed to reject at line 215. -/
inductive PromiseState where
  | pending
  | resolved (sol : Solution)
  | rejectedTimeout
  | rejectedFailure (sol : Solution)
deriving Repr

/-- First-settlement-wins semantics of a JS promise: resolve and reject
are no-ops once the promise is settled. -/
def PromiseState.settle : PromiseState → PromiseState → PromiseState
  | .pending, v => v
  | s, _ => s

/-- Truthiness helpers on the promise state. -/
def PromiseState.isPending : PromiseState → Bool
  | .pending => true
  | _ => false

def PromiseState.isResolved : PromiseState → Bool
  | .resolved _ => true
  | _ => false

def PromiseState.isRejectedTimeout : PromiseState → Bool
  | .rejectedTimeout => true
  | _ => false

/-- State of one executePythonCodeInBackground call: its captured
configuration, the responseNumber counter of line 186, the solution
record, the deferred result, and the retryNumber of the next scheduled
waitForAllCallbacks call (none while no call has been scheduled: the
poller only starts when a successful shell reply invokes it at
line 213). -/
structure SubState where
  cfg : SubConfig
  responseNumber : Nat
  solution : Solution
  promise : PromiseState
  pollerRetry : Option Nat
deriving Repr

/-- Initial state built by the Promise executor (lines 191-196 and
220-221): solution gets an output field exactly when the submission is
not shell-only. -/
def initSub (cfg : SubConfig) : SubState :=
  { cfg := cfg
    responseNumber := 0
    solution :=
      { code := cfg.codeString
        shell := none
        output := if cfg.shellOnly then none else some none }
    promise := .pending
    pollerRetry := none }

/-- One call of waitForAllCallbacks (lines 197-201) at a given
retryNumber: past 100 retries it rejects with the timeout error, then
it resolves with the solution record when every field is truthy, and it
always schedules the next call with retryNumber + 1. Settling is a
no-op on an already settled promise. -/
def waitBody (s : SubState) (n : Nat) : SubState :=
  let p1 := if n > 100 then s.promise.settle .rejectedTimeout else s.promise
  let p2 := if solutionFull s.solution then p1.settle (.resolved s.solution) else p1
  { s with promise := p2, pollerRetry := some (n + 1) }

/-- The successReplies getter (lines 178-181): execute_result is always
acceptable, stream only when expectStreamIndex is truthy. -/
def successReplies (cfg : SubConfig) : List String :=
  if cfg.expectStreamIndex ≠ 0 then ["execute_result", "stream"]
  else ["execute_result"]

/-- The replySuccessful predicate (line 183). -/
def replySuccessful (cfg : SubConfig) (msgType : String) : Bool :=
  (successReplies cfg).contains msgType

/-- The shell.reply callback (lines 206-217). The guard compares
expectedId against the _id of the object spread taken at line 188; when
it passes, the reply is written into solution.shell, a success
completion starts waitForAllCallbacks with retryNumber 0, and any other
completion rejects the deferred with the solution record. The custom
shell callback of line 208 and the live-instance write
this.shellOnly = false of line 210 have no effect on this state. -/
def shellReplyStep (s : SubState) (m : ShellMsg) : SubState :=
  if s.cfg.expectedId ≠ s.cfg.thatId then s
  else
    let sol := { s.solution with shell := some m }
    let s1 := { s with solution := sol }
    if m.msg_type = "execute_reply" ∧ m.status = "ok" then waitBody s1 0
    else { s1 with promise := s1.promise.settle (.rejectedFailure sol) }

/-- The iopub.output callback (lines 222-239). It exists only for
submissions that are not shell-only (line 220); after the id guard it
stores a reply whose kind is in successReplies, where stream mode
counts successful replies and keeps only the one at the expected index,
and outside stream mode a stored reply of a cell-less instance is
enriched with the parsed result (line 235; a parse exception there
leaves the stored reply unenriched and aborts the rest of the
callback, of which there is none). -/
def outputReplyStep (s : SubState) (m : OutputMsg) : SubState :=
  if s.cfg.shellOnly then s
  else if s.cfg.expectedId ≠ s.cfg.thatId then s
  else if replySuccessful s.cfg m.msg_type then
    if s.cfg.expectStreamIndex ≠ 0 then
      let rn := s.responseNumber + 1
      if rn ≠ s.cfg.expectStreamIndex then { s with responseNumber := rn }
      else
        { s with
            responseNumber := rn
            solution := { s.solution with output := some (some m) } }
    else
      let stored :=
        if !s.cfg.hasCell then
          match parseResultRaw s.cfg.expectJSON m with
          | .ok v => { m with parsed := some v }
          | .error _ => m
        else m
      { s with solution := { s.solution with output := some (some stored) } }
  else s

/-- A timer tick delivering the next scheduled waitForAllCallbacks
call, if one is scheduled. -/
def tickStep (s : SubState) : SubState :=
  match s.pollerRetry with
  | none => s
  | some n => waitBody s n

/-- Events observable by one submission: the two channel callbacks and
the 50ms timer. -/
inductive SubEvent where
  | shellReply (m : ShellMsg)
  | outputReply (m : OutputMsg)
  | tick
deriving Repr

/-- Event dispatch. -/
def subStep (s : SubState) : SubEvent → SubState
  | .shellReply m => shellReplyStep s m
  | .outputReply m => outputReplyStep s m
  | .tick => tickStep s

/-- Run a submission from its initial state over a list of events. -/
def runSub (cfg : SubConfig) (evts : List SubEvent) : SubState :=
  evts.foldl subStep (initSub cfg)

/-- Whether an event list contains any shell (completion) reply. -/
def hasShellReply (evts : List SubEvent) : Bool :=
  evts.any (fun e => match e with | .shellReply _ => true | _ => false)

/-- The instance fields of the JupyterKernel class that the embedded
fragment reads: the _id field written by the id getter and the
configuration set by the chainable methods. -/
structure KernelInstance where
  uid : Nat
  codeString : String
  shellOnly : Bool
  expectStreamIndex : Nat
  expectJSON : Bool
  hasCell : Bool
deriving Repr

/-- The id getter (lines 105-109): it increments the process-wide
window.jupyterKernelUniqueID counter, stores the new value in this._id
and returns it. The result is the new counter, the updated instance and
the returned id. -/
def idGet (window : Nat) (inst : KernelInstance) :
    Nat × KernelInstance × Nat :=
  let w := window + 1
  (w, { inst with uid := w }, w)

/-- Lines 187-188 of executePythonCodeInBackground: expectedId is the
value of this.id (which bumps the counter and this._id), and that is an
object spread of the instance taken immediately afterwards, so thatId
is a frozen copy of this._id at that moment. The result is the captured
configuration, the new counter and the updated live instance. -/
def mkSubConfig (window : Nat) (inst : KernelInstance) :
    SubConfig × Nat × KernelInstance :=
  let r := idGet window inst
  (⟨r.2.2, r.2.1.uid, r.2.1.codeString, r.2.1.shellOnly,
    r.2.1.expectStreamIndex, r.2.1.expectJSON, r.2.1.hasCell⟩,
   r.1, r.2.1)

/-- The registration state of the sequencing engine: command is the id
of the promise currently stored in this.command, and regs is the list
of (promise, element) continuation registrations made by then
(line 360: this.command.then), in registration order. -/
structure SeqInstance where
  command : Nat
  regs : List (Nat × Nat)
deriving Repr, DecidableEq

/-- One then call (lines 354-366): it registers a continuation on the
promise currently held in this.command and returns the instance
unchanged otherwise. -/
def thenReg (m : SeqInstance) (elem : Nat) : SeqInstance :=
  { m with regs := m.regs ++ [(m.command, elem)] }

/-- applySameOnEachElement (lines 397-409): a synchronous forEach that
calls this.then once per element of the collection, in order. -/
def applySameOnEachElement (m : SeqInstance) (xs : List Nat) : SeqInstance :=
  xs.foldl thenReg m

/-- The continuations registered on a given promise, in registration
order: these run back to back when that promise settles. -/
def contsOn (m : SeqInstance) (p : Nat) : List Nat :=
  (m.regs.filter (fun r => r.1 == p)).map (fun r => r.2)

/-- Observable events of the sequencing scenario: the per-element
callback being invoked, and the settlement of the submission that the
callback for an element dispatched. -/
inductive Obs where
  | invoked (elem : Nat)
  | settledSub (elem : Nat)
deriving Repr, DecidableEq

/-- JS scheduler state for the sequencing scenario: micro holds the
continuations of the settled command promise (they run as microtasks,
FIFO); tasks holds the kernel replies of the submissions dispatched by
already-run continuations (they are delivered as macrotasks, after the
microtask queue has drained); log records the observations. -/
structure LoopState where
  micro : List Nat
  tasks : List Nat
  log : List Obs
deriving Repr, DecidableEq

/-- One scheduler step. A microtask is one continuation body from then
(lines 361-364): it records the invocation of the per-element callback,
and the callback dispatches one submission whose reply will arrive as a
macrotask. Only when the microtask queue is empty does a macrotask run,
settling the corresponding submission. -/
def loopStep : LoopState → LoopState
  | ⟨e :: micro, tasks, log⟩ => ⟨micro, tasks ++ [e], log ++ [Obs.invoked e]⟩
  | ⟨[], r :: tasks, log⟩ => ⟨[], tasks, log ++ [Obs.settledSub r]⟩
  | ⟨[], [], log⟩ => ⟨[], [], log⟩

/-- Iterated scheduler steps. -/
def runLoop : Nat → LoopState → LoopState
  | 0, s => s
  | n + 1, s => runLoop n (loopStep s)

/-- Scheduler state at the moment the command promise that the
continuations were registered on settles: its continuations become the
microtask queue, in registration order. -/
def initLoop (m : SeqInstance) (p : Nat) : LoopState :=
  ⟨contsOn m p, [], []⟩

/-- State of one static awaitAll call in done-flag mode (lines
117-135): the doneFlag of every participating instance, the retryCount
of the interval callback, whether the interval is still installed, and
the state of the returned promise. -/
inductive AwaitState where
  | pending
  | resolvedInstances
  | rejectedTimeout
deriving Repr, DecidableEq

/-- First-settlement-wins semantics for the awaitAll promise. -/
def settleAwait : AwaitState → AwaitState → AwaitState
  | .pending, v => v
  | s, _ => s

structure AwaitAllState where
  flags : List Bool
  retryCount : Nat
  intervalActive : Bool
  result : AwaitState
deriving Repr, DecidableEq

/-- One interval callback of awaitAll in done-flag mode (lines
120-133): if every instance has doneFlag true, the interval is cleared,
every doneFlag is reset to false and the promise resolves with the
instances; then retryCount is incremented and, past 400, the interval
is cleared and the promise rejects with the timeout error (a no-op if
it already resolved in the same callback). -/
def awaitAllTick (s : AwaitAllState) : AwaitAllState :=
  if s.intervalActive then
    let ready := s.flags.all (fun b => b)
    let s1 :=
      if ready then
        { s with
            intervalActive := false
            flags := s.flags.map (fun _ => false)
            result := settleAwait s.result .resolvedInstances }
      else s
    let s2 := { s1 with retryCount := s1.retryCount + 1 }
    if s2.retryCount > 400 then
      { s2 with intervalActive := false
                result := settleAwait s2.result .rejectedTimeout }
    else s2
  else s

/-- Modelled from the spec: the foreign single-quote string-repr
convention of the remote kernel (single enclosing quotes, doubled
backslashes). The encoder itself is the remote Python side and is not
part of the embedded JavaScript source. -/
def foreignEncode (l : List Char) : List Char :=
  sqc :: (l.map (fun c => if c = '\\' then ['\\', '\\'] else [c])).flatten ++ [sqc]

/-- The logical string used by the round-trip example of the spec: the
characters of O-Brien-backslash-path with a single quote after the O. -/
def obrienChars : List Char :=
  ['O', sqc, 'B', 'r', 'i', 'e', 'n', '\\', 'p', 'a', 't', 'h']

/-- Concrete instance for the stale-reply scenario: fresh instance with
code, shell-only submissions, no stream mode, no cell. -/
def c1Inst : KernelInstance :=
  { uid := 0, codeString := "x", shellOnly := true
    expectStreamIndex := 0, expectJSON := true, hasCell := false }

/-- First submission on the instance: global counter starts at 0. -/
def c1First : SubConfig × Nat × KernelInstance := mkSubConfig 0 c1Inst

/-- Second submission issued on the same instance before the first
drains: it advances the counter and the instance id again. -/
def c1Second : SubConfig × Nat × KernelInstance :=
  mkSubConfig c1First.2.1 c1First.2.2

/-- A successful completion reply. -/
def okReply : ShellMsg := { msg_type := "execute_reply", status := "ok" }

/-- Invariant tying resolution to a full solution record: the output
field of the current solution exists, and any resolved value of the
deferred was a full record whose output field existed. -/
def resolvedFullInv (s : SubState) : Prop :=
  s.solution.output ≠ none ∧
  ∀ sol, s.promise = .resolved sol → solutionFull sol = true ∧ sol.output ≠ none

/- ------------------------------------------------------------------ -/
/- Theorems.                                                          -/
/- ------------------------------------------------------------------ -/

/-- Unfolding of collapseEscQuote at a head that is not a backslash. -/
theorem collapseEscQuote_cons_ne (c : Char) (rest : List Char) (h : ¬ c = '\\') :
    collapseEscQuote (c :: rest) = c :: collapseEscQuote rest := by
  rw [collapseEscQuote.eq_def]
  split <;> simp_all

/-- Unfolding of collapseEscSlash at a head that is not a backslash. -/
theorem collapseEscSlash_cons_ne (c : Char) (rest : List Char) (h : ¬ c = '\\') :
    collapseEscSlash (c :: rest) = c :: collapseEscSlash rest := by
  rw [collapseEscSlash.eq_def]
  split <;> simp_all

/-- collapseEscQuote does not change a backslash-free text. -/
theorem collapseEscQuote_id (l : List Char) (h : '\\' ∉ l) : collapseEscQuote l = l := by
  induction l with
  | nil => rfl
  | cons c rest ih =>
    have hc : ¬ c = '\\' := fun heq => h (heq ▸ List.mem_cons_self c rest)
    rw [collapseEscQuote_cons_ne c rest hc,
      ih (fun hm => h (List.mem_cons_of_mem c hm))]

/-- collapseEscSlash does not change a backslash-free text. -/
theorem collapseEscSlash_id (l : List Char) (h : '\\' ∉ l) : collapseEscSlash l = l := by
  induction l with
  | nil => rfl
  | cons c rest ih =>
    have hc : ¬ c = '\\' := fun heq => h (heq ▸ List.mem_cons_self c rest)
    rw [collapseEscSlash_cons_ne c rest hc,
      ih (fun hm => h (List.mem_cons_of_mem c hm))]

/-- replaceQuotes does not change a text without single quotes. -/
theorem replaceQuotes_id (l : List Char) (h : sqc ∉ l) : replaceQuotes l = l := by
  induction l with
  | nil => rfl
  | cons c rest ih =>
    have hc : ¬ c = sqc := fun heq => h (heq ▸ List.mem_cons_self c rest)
    have ht := ih (fun hm => h (List.mem_cons_of_mem c hm))
    simp only [replaceQuotes, List.map_cons, if_neg hc]
    simpa [replaceQuotes] using ht

/-- stripOuter does not change a text that does not start with a
double quote. -/
theorem stripOuter_id (l : List Char) (h : l.head? ≠ some '"') : stripOuter l = l := by
  match l with
  | [] => rfl
  | c :: rest =>
    have hc : ¬ c = '"' := fun heq => h (by simp [heq])
    simp [stripOuter, hc]

/-- The normalization chain of parseResult is the identity on payloads
with no single quote, no backslash and no leading double quote. -/
theorem normalizePayload_id (l : List Char) (hq : sqc ∉ l) (hb : '\\' ∉ l)
    (hh : l.head? ≠ some '"') : normalizePayload l = l := by
  unfold normalizePayload
  rw [replaceQuotes_id l hq, collapseEscQuote_id l hb, collapseEscSlash_id l hb,
    stripOuter_id l hh]

/-- C4, counterexample: the claim states that the parseResult
normalization is idempotent on already-valid JSON text and round-trip
safe for values with embedded single quotes, backslashes and slashes.
Both parts fail. The text consisting of a JSON array holding the string
of a-backslash-backslash (written with two escaped backslashes) and the
number 1 is valid JSON (the JSON.parse model accepts it), yet a second
normalization pass collapses a further backslash pair, so normalization
is not idempotent on it. And the spec example string O-quote-Brien-
backslash-path, encoded with the foreign single-quote convention, does
not decode back to itself: normalization rewrites its embedded single
quote to a double quote and the result is not even parseable JSON. -/
theorem c4_counterexample :
    (jsonParseChars ("[\"a\\\\\\\\\",1]".data)).isSome = true ∧
    normalizePayload (normalizePayload ("[\"a\\\\\\\\\",1]".data)) ≠
      normalizePayload ("[\"a\\\\\\\\\",1]".data) ∧
    normalizePayload (foreignEncode obrienChars) ≠ obrienChars ∧
    (jsonParseChars (normalizePayload (foreignEncode obrienChars))).isSome = false :=
  ⟨rfl, by decide, by decide, rfl⟩

/-- C4, amended: the parseResult normalization is the identity, and
hence idempotent, exactly on payloads that contain no single quote and
no backslash and do not begin with a double quote; payloads outside
this class are rewritten (every single quote becomes a double quote,
backslash pairs before quotes or slashes collapse, a leading quote
strips the first and last character), which breaks both idempotence on
general valid JSON and the single-quote round trip. -/
theorem c4_normalization_identity (l : List Char) (hq : sqc ∉ l) (hb : '\\' ∉ l)
    (hh : l.head? ≠ some '"') :
    normalizePayload l = l ∧
    normalizePayload (normalizePayload l) = normalizePayload l := by
  have h1 := normalizePayload_id l hq hb hh
  exact ⟨h1, by rw [h1]; exact h1⟩

/-- Witness for C4 at the concrete payload a-b. -/
theorem c4_witness :
    normalizePayload ['a', 'b'] = ['a', 'b'] ∧
    normalizePayload (normalizePayload ['a', 'b']) = normalizePayload ['a', 'b'] :=
  c4_normalization_identity ['a', 'b'] (by decide) (by decide) (by decide)

/-- C7: when JSON decoding is expected and the normalized payload fails
to parse, parseResult returns the generic parser error that carries the
original, untouched result message (the object the catch block logs for
debuggability), and never the secondary exception of JSON.parse on the
normalized string, which the catch swallows. -/
theorem c7_parse_error_surfaces_raw (result : OutputMsg) (tp : String)
    (hdata : result.textPlain = some tp)
    (hfail : (jsonParseChars (normalizePayload tp.data)).isSome = false) :
    parseResultRaw true result =
      .error (.parseFailure result "JupyterKernel error: result parsing failed") := by
  simp only [parseResultRaw, hdata]
  cases hj : jsonParseChars (normalizePayload tp.data) with
  | none => simp [hj]
  | some v => rw [hj] at hfail; simp at hfail

/-- Witness for C7 at a payload that is not JSON. -/
theorem c7_witness :
    parseResultRaw true
      { msg_type := "execute_result", textPlain := some "nope", text := ""
        parsed := none } =
      .error (.parseFailure
        { msg_type := "execute_result", textPlain := some "nope", text := ""
          parsed := none }
        "JupyterKernel error: result parsing failed") :=
  c7_parse_error_surfaces_raw _ "nope" rfl rfl

/-- Settlement analysis: a settled-to-resolved promise was either
already resolved or was pending and received that resolution. -/
theorem settle_resolved (p v : PromiseState) (sol : Solution)
    (h : p.settle v = .resolved sol) :
    p = .resolved sol ∨ (p = .pending ∧ v = .resolved sol) := by
  cases p with
  | pending => exact Or.inr ⟨rfl, h⟩
  | resolved s => exact Or.inl h
  | rejectedTimeout => exact nomatch h
  | rejectedFailure s => exact nomatch h

/-- One waitForAllCallbacks call preserves the resolution invariant:
it only resolves with the current solution and only when that record is
full. -/
theorem waitBody_inv (s : SubState) (n : Nat) (h : resolvedFullInv s) :
    resolvedFullInv (waitBody s n) := by
  obtain ⟨hout, hres⟩ := h
  refine ⟨hout, ?_⟩
  intro sol hsol
  simp only [waitBody] at hsol
  by_cases hfull : solutionFull s.solution
  · rw [if_pos hfull] at hsol
    rcases settle_resolved _ _ _ hsol with h1 | ⟨hp, heq⟩
    · by_cases hn : n > 100
      · rw [if_pos hn] at h1
        rcases settle_resolved _ _ _ h1 with h2 | ⟨_, h3⟩
        · exact hres sol h2
        · exact nomatch h3
      · rw [if_neg hn] at h1
        exact hres sol h1
    · exact PromiseState.resolved.inj heq ▸ ⟨hfull, hout⟩
  · rw [if_neg hfull] at hsol
    by_cases hn : n > 100
    · rw [if_pos hn] at hsol
      rcases settle_resolved _ _ _ hsol with h2 | ⟨_, h3⟩
      · exact hres sol h2
      · exact nomatch h3
    · rw [if_neg hn] at hsol
      exact hres sol hsol

/-- The shell callback preserves the resolution invariant. -/
theorem shellReplyStep_inv (s : SubState) (m : ShellMsg) (h : resolvedFullInv s) :
    resolvedFullInv (shellReplyStep s m) := by
  unfold shellReplyStep
  by_cases hg : s.cfg.expectedId ≠ s.cfg.thatId
  · rw [if_pos hg]; exact h
  · rw [if_neg hg]
    by_cases hok : m.msg_type = "execute_reply" ∧ m.status = "ok"
    · rw [if_pos hok]
      exact waitBody_inv _ 0 ⟨h.1, fun sol hsol => h.2 sol hsol⟩
    · rw [if_neg hok]
      refine ⟨h.1, ?_⟩
      intro sol hsol
      rcases settle_resolved _ _ _ hsol with h1 | ⟨_, h2⟩
      · exact h.2 sol h1
      · exact nomatch h2

/-- The output callback preserves the resolution invariant. -/
theorem outputReplyStep_inv (s : SubState) (m : OutputMsg) (h : resolvedFullInv s) :
    resolvedFullInv (outputReplyStep s m) := by
  unfold outputReplyStep
  by_cases h1 : s.cfg.shellOnly = true
  · rw [if_pos h1]; exact h
  · rw [if_neg h1]
    by_cases h2 : s.cfg.expectedId ≠ s.cfg.thatId
    · rw [if_pos h2]; exact h
    · rw [if_neg h2]
      by_cases h3 : replySuccessful s.cfg m.msg_type = true
      · rw [if_pos h3]
        by_cases h4 : s.cfg.expectStreamIndex ≠ 0
        · rw [if_pos h4]
          by_cases h5 : s.responseNumber + 1 ≠ s.cfg.expectStreamIndex
          · rw [if_pos h5]; exact ⟨h.1, h.2⟩
          · rw [if_neg h5]
            exact ⟨by simp, h.2⟩
        · rw [if_neg h4]
          exact ⟨by simp, h.2⟩
      · rw [if_neg h3]; exact h

/-- A timer tick preserves the resolution invariant. -/
theorem tickStep_inv (s : SubState) (h : resolvedFullInv s) :
    resolvedFullInv (tickStep s) := by
  unfold tickStep
  split
  · exact h
  · exact waitBody_inv _ _ h

/-- Every event preserves the resolution invariant. -/
theorem subStep_inv (s : SubState) (e : SubEvent) (h : resolvedFullInv s) :
    resolvedFullInv (subStep s e) := by
  cases e with
  | shellReply m => exact shellReplyStep_inv s m h
  | outputReply m => exact outputReplyStep_inv s m h
  | tick => exact tickStep_inv s h

/-- Event traces preserve the resolution invariant. -/
theorem foldl_subStep_inv (evts : List SubEvent) :
    ∀ s : SubState, resolvedFullInv s → resolvedFullInv (evts.foldl subStep s) := by
  induction evts with
  | nil => intro s h; exact h
  | cons e rest ih =>
    intro s h
    rw [List.foldl_cons]
    exact ih _ (subStep_inv s e h)

/-- C2: for a submission that is not shell-only, along every event
trace the deferred result only resolves with a solution record in which
every field is truthy; in particular the completion slot and the output
slot are both non-empty at resolution. -/
theorem c2_resolution_requires_full_slot (cfg : SubConfig) (evts : List SubEvent)
    (sol : Solution) (hShell : cfg.shellOnly = false)
    (hRes : (runSub cfg evts).promise = .resolved sol) :
    solutionFull sol = true ∧ sol.shell.isSome = true ∧
      ∃ m, sol.output = some (some m) := by
  have hinv : resolvedFullInv (initSub cfg) := by
    refine ⟨?_, ?_⟩
    · simp [initSub, hShell]
    · intro s hs; exact nomatch hs
  have hfin := foldl_subStep_inv evts (initSub cfg) hinv
  obtain ⟨hful, hout⟩ := hfin.2 sol hRes
  have hful2 := hful
  simp only [solutionFull, Bool.and_eq_true] at hful2
  obtain ⟨⟨hcode, hshell⟩, hmatch⟩ := hful2
  refine ⟨hful, hshell, ?_⟩
  cases ho : sol.output with
  | none => exact absurd ho hout
  | some o =>
    rw [ho] at hmatch
    cases o with
    | none => exact nomatch hmatch
    | some m => exact ⟨m, rfl⟩

/-- Witness for C2: a trace in which the completion reply arrives, then
the output reply, then a poller tick resolves; the theorem applies and
its conclusion holds at the resolved record. -/
theorem c2_witness :
    solutionFull
      { code := "x", shell := some { msg_type := "execute_reply", status := "ok" }
        output := some (some { msg_type := "execute_result", textPlain := some "1"
                               text := "", parsed := none }) } = true ∧
    (some { msg_type := "execute_reply", status := "ok" } :
        Option ShellMsg).isSome = true ∧
    ∃ m, (some (some { msg_type := "execute_result", textPlain := some "1"
                       text := "", parsed := none }) :
            Option (Option OutputMsg)) = some (some m) := by
  have h := c2_resolution_requires_full_slot
    { expectedId := 1, thatId := 1, codeString := "x", shellOnly := false
      expectStreamIndex := 0, expectJSON := true, hasCell := true }
    [SubEvent.shellReply { msg_type := "execute_reply", status := "ok" },
     SubEvent.outputReply { msg_type := "execute_result", textPlain := some "1"
                            text := "", parsed := none },
     SubEvent.tick]
    { code := "x", shell := some { msg_type := "execute_reply", status := "ok" }
      output := some (some { msg_type := "execute_result", textPlain := some "1"
                             text := "", parsed := none }) }
    rfl rfl
  exact h

/-- The output callback never touches the deferred result or the
poller schedule. -/
theorem outputReplyStep_promise (s : SubState) (m : OutputMsg) :
    (outputReplyStep s m).promise = s.promise ∧
    (outputReplyStep s m).pollerRetry = s.pollerRetry := by
  unfold outputReplyStep
  split_ifs <;> constructor <;> (try rfl) <;> (dsimp only; split <;> rfl)

/-- While the solution record is not full and the promise pending,
ticks only advance the scheduled retryNumber, as long as it stays
within the 101-call budget. -/
theorem ticks_pending (k : Nat) : ∀ (s : SubState) (n : Nat),
    s.pollerRetry = some n → s.promise = .pending →
    solutionFull s.solution = false → n + k ≤ 101 →
    (List.replicate k SubEvent.tick).foldl subStep s =
      { s with pollerRetry := some (n + k) } := by
  induction k with
  | zero =>
    intro s n hp hpr hf hle
    cases s
    simp_all
  | succ k ih =>
    intro s n hp hpr hf hle
    rw [List.replicate_succ, List.foldl_cons]
    have hn : ¬ n > 100 := by omega
    have hf2 : ¬ (solutionFull s.solution = true) := by simp [hf]
    have hstep : subStep s .tick = { s with pollerRetry := some (n + 1) } := by
      simp only [subStep, tickStep, hp, waitBody]
      rw [if_neg hn, if_neg hf2]
    rw [hstep]
    have hrec := ih { s with pollerRetry := some (n + 1) } (n + 1) rfl hpr hf (by omega)
    rw [hrec]
    have harith : n + 1 + k = n + (k + 1) := by omega
    rw [harith]

/-- Without any completion reply the poller is never started and the
deferred result stays pending, whatever else happens. -/
theorem noshell_pending (evts : List SubEvent) :
    ∀ s : SubState, hasShellReply evts = false →
    s.promise = .pending → s.pollerRetry = none →
    (evts.foldl subStep s).promise = .pending ∧
    (evts.foldl subStep s).pollerRetry = none := by
  induction evts with
  | nil => intro s _ hp hr; exact ⟨hp, hr⟩
  | cons e rest ih =>
    intro s hns hp hr
    rw [List.foldl_cons]
    cases e with
    | shellReply m => simp [hasShellReply] at hns
    | outputReply m =>
      have hns2 : hasShellReply rest = false := by
        simp [hasShellReply] at hns ⊢
        exact hns
      obtain ⟨h1, h2⟩ := outputReplyStep_promise s m
      exact ih _ hns2 (h1.trans hp) (h2.trans hr)
    | tick =>
      have hns2 : hasShellReply rest = false := by
        simp [hasShellReply] at hns ⊢
        exact hns
      have : subStep s .tick = s := by simp [subStep, tickStep, hr]
      rw [this]
      exact ih _ hns2 hp hr

/-- C3, amended: the retry-budget timeout exists but is only armed by
a successful completion reply: a submission whose completion arrived
with status ok and whose solution record never fills (here because no
acceptable output reply arrives) rejects with the timeout error on the
101st poller tick; a submission whose completion reply never arrives
never settles at all, and in particular never rejects. The timeout
rejection value is the bare Error of line 198 and does not carry the
submitted code. -/
theorem c3_timeout_semantics (cfg : SubConfig) (m : ShellMsg)
    (hShell : cfg.shellOnly = false)
    (hGuard : cfg.expectedId = cfg.thatId)
    (hmt : m.msg_type = "execute_reply") (hst : m.status = "ok") :
    (runSub cfg (SubEvent.shellReply m :: List.replicate 101 SubEvent.tick)).promise =
      .rejectedTimeout ∧
    ∀ evts, hasShellReply evts = false → (runSub cfg evts).promise = .pending := by
  constructor
  · have hfull : solutionFull
        { code := cfg.codeString, shell := some m, output := some none } = false := by
      simp [solutionFull]
    have hs1 : subStep (initSub cfg) (.shellReply m) =
        { cfg := cfg, responseNumber := 0
          solution := { code := cfg.codeString, shell := some m, output := some none }
          promise := .pending, pollerRetry := some 1 } := by
      simp only [subStep, shellReplyStep, initSub, hShell]
      rw [if_neg (by simp [hGuard]), if_pos ⟨hmt, hst⟩]
      simp only [waitBody]
      rw [if_neg (show ¬ (0 : Nat) > 100 by omega)]
      simp [hfull]
    show (List.foldl subStep (initSub cfg)
        (SubEvent.shellReply m :: List.replicate 101 SubEvent.tick)).promise = _
    rw [List.foldl_cons, hs1]
    rw [show (101 : Nat) = 100 + 1 from rfl, List.replicate_succ', List.foldl_append]
    rw [ticks_pending 100 _ 1 rfl rfl hfull (by omega)]
    simp only [List.foldl_cons, List.foldl_nil, subStep, tickStep, waitBody]
    rw [if_pos (show (1 + 100 : Nat) > 100 by omega)]
    simp [hfull, PromiseState.settle]
  · intro evts hns
    exact (noshell_pending evts (initSub cfg) hns rfl rfl).1

set_option maxRecDepth 8192 in
/-- C3, counterexample: for a submission whose completion reply never
arrives, the claim predicts a timeout rejection after the retry budget;
in the code no poller is ever started, so after 200 ticks (twice the
budget) the deferred result is still pending and no timeout rejection
has occurred. -/
theorem c3_counterexample :
    (runSub { expectedId := 1, thatId := 1, codeString := "x", shellOnly := false
              expectStreamIndex := 0, expectJSON := true, hasCell := true }
        (List.replicate 200 SubEvent.tick)).promise.isPending = true ∧
    (runSub { expectedId := 1, thatId := 1, codeString := "x", shellOnly := false
              expectStreamIndex := 0, expectJSON := true, hasCell := true }
        (List.replicate 200 SubEvent.tick)).promise.isRejectedTimeout = false :=
  ⟨by decide, by decide⟩

/-- Witness for C3 at a concrete configuration: a successful completion
followed by 101 output-less ticks rejects with the timeout, and a
single tick without completion leaves the deferred pending. -/
theorem c3_witness :
    (runSub { expectedId := 1, thatId := 1, codeString := "x", shellOnly := false
              expectStreamIndex := 0, expectJSON := true, hasCell := true }
        (SubEvent.shellReply { msg_type := "execute_reply", status := "ok" } ::
          List.replicate 101 SubEvent.tick)).promise = .rejectedTimeout ∧
    (runSub { expectedId := 1, thatId := 1, codeString := "x", shellOnly := false
              expectStreamIndex := 0, expectJSON := true, hasCell := true }
        [SubEvent.tick]).promise = .pending :=
  ⟨(c3_timeout_semantics
      { expectedId := 1, thatId := 1, codeString := "x", shellOnly := false
        expectStreamIndex := 0, expectJSON := true, hasCell := true }
      { msg_type := "execute_reply", status := "ok" }
      rfl rfl rfl rfl).1,
   (c3_timeout_semantics
      { expectedId := 1, thatId := 1, codeString := "x", shellOnly := false
        expectStreamIndex := 0, expectJSON := true, hasCell := true }
      { msg_type := "execute_reply", status := "ok" }
      rfl rfl rfl rfl).2 [SubEvent.tick] rfl⟩

/-- C6: a completion reply that is not a successful execute_reply
rejects the deferred result in the very callback that received it (no
poller tick is involved), and the rejection value is the solution
record holding the failing shell reply. -/
theorem c6_failure_immediate_reject (s : SubState) (m : ShellMsg)
    (hGuard : s.cfg.expectedId = s.cfg.thatId)
    (hPending : s.promise = .pending)
    (hFail : ¬ (m.msg_type = "execute_reply" ∧ m.status = "ok")) :
    (subStep s (.shellReply m)).promise =
      .rejectedFailure { s.solution with shell := some m } := by
  simp only [subStep, shellReplyStep]
  rw [if_neg (by simp [hGuard]), if_neg hFail]
  simp [hPending, PromiseState.settle]

/-- Witness for C6: an execute_reply with status error rejects at once
with the solution record containing it. -/
theorem c6_witness :
    (subStep
        (initSub { expectedId := 1, thatId := 1, codeString := "x", shellOnly := false
                   expectStreamIndex := 0, expectJSON := true, hasCell := true })
        (.shellReply { msg_type := "execute_reply", status := "error" })).promise =
      .rejectedFailure
        { code := "x"
          shell := some { msg_type := "execute_reply", status := "error" }
          output := some none } :=
  c6_failure_immediate_reject
    (initSub { expectedId := 1, thatId := 1, codeString := "x", shellOnly := false
               expectStreamIndex := 0, expectJSON := true, hasCell := true })
    { msg_type := "execute_reply", status := "error" }
    rfl rfl (by decide)

/-- Output replies are invisible to a shell-only submission: its
solution record has no output field and no iopub handler of its own. -/
theorem foldl_output_shellOnly (outs : List OutputMsg) :
    ∀ s : SubState, s.cfg.shellOnly = true →
    (outs.map SubEvent.outputReply).foldl subStep s = s := by
  induction outs with
  | nil => intro s _; rfl
  | cons m rest ih =>
    intro s hso
    rw [List.map_cons, List.foldl_cons]
    have hstep : subStep s (.outputReply m) = s := by
      simp only [subStep, outputReplyStep]
      rw [if_pos hso]
    rw [hstep]
    exact ih s hso

/-- C8, amended: a shell-only submission with a non-empty code string
resolves in the very callback that receives its successful completion
reply, and any output replies delivered afterwards change nothing. The
non-empty code hypothesis is needed because the resolution check tests
the truthiness of every solution field and the empty string is falsy. -/
theorem c8_shell_only_resolves (cfg : SubConfig) (m : ShellMsg) (outs : List OutputMsg)
    (hShell : cfg.shellOnly = true) (hCode : (cfg.codeString == "") = false)
    (hGuard : cfg.expectedId = cfg.thatId)
    (hmt : m.msg_type = "execute_reply") (hst : m.status = "ok") :
    (runSub cfg (SubEvent.shellReply m :: outs.map SubEvent.outputReply)).promise =
      .resolved { code := cfg.codeString, shell := some m, output := none } := by
  have hfull : solutionFull
      { code := cfg.codeString, shell := some m, output := none } = true := by
    simp [solutionFull, hCode]
  have hs1 : subStep (initSub cfg) (.shellReply m) =
      { cfg := cfg, responseNumber := 0
        solution := { code := cfg.codeString, shell := some m, output := none }
        promise := .resolved { code := cfg.codeString, shell := some m, output := none }
        pollerRetry := some 1 } := by
    simp only [subStep, shellReplyStep, initSub, hShell]
    rw [if_neg (by simp [hGuard]), if_pos ⟨hmt, hst⟩]
    simp [waitBody, hShell, hfull, PromiseState.settle]
  show (List.foldl subStep (initSub cfg)
      (SubEvent.shellReply m :: outs.map SubEvent.outputReply)).promise = _
  rw [List.foldl_cons, hs1, foldl_output_shellOnly outs _ hShell]

/-- Witness for C8: a concrete shell-only submission resolves on its
successful completion and ignores a later execute_result reply. -/
theorem c8_witness :
    (runSub { expectedId := 1, thatId := 1, codeString := "x", shellOnly := true
              expectStreamIndex := 0, expectJSON := true, hasCell := false }
        (SubEvent.shellReply { msg_type := "execute_reply", status := "ok" } ::
          ([{ msg_type := "execute_result", textPlain := some "2", text := ""
              parsed := none }] : List OutputMsg).map SubEvent.outputReply)).promise =
      .resolved { code := "x"
                  shell := some { msg_type := "execute_reply", status := "ok" }
                  output := none } :=
  c8_shell_only_resolves
    { expectedId := 1, thatId := 1, codeString := "x", shellOnly := true
      expectStreamIndex := 0, expectJSON := true, hasCell := false }
    { msg_type := "execute_reply", status := "ok" }
    [{ msg_type := "execute_result", textPlain := some "2", text := "", parsed := none }]
    rfl rfl rfl rfl rfl

set_option maxRecDepth 8192 in
/-- C8, counterexample: the claim quantifies over every shell-only
submission, but a shell-only submission whose code string is empty does
not resolve when its successful completion reply arrives (the empty
string is falsy in the all-fields check of line 199); it instead times
out after the poller budget. -/
theorem c8_counterexample :
    (runSub { expectedId := 1, thatId := 1, codeString := "", shellOnly := true
              expectStreamIndex := 0, expectJSON := true, hasCell := false }
        [SubEvent.shellReply { msg_type := "execute_reply", status := "ok" }]).promise.isPending
      = true ∧
    (runSub { expectedId := 1, thatId := 1, codeString := "", shellOnly := true
              expectStreamIndex := 0, expectJSON := true, hasCell := false }
        (SubEvent.shellReply { msg_type := "execute_reply", status := "ok" } ::
          List.replicate 101 SubEvent.tick)).promise.isRejectedTimeout = true :=
  ⟨by decide, by decide⟩

/-- C9, counterexample: with stream mode off (the default), a stream
reply is not in successReplies, so the claim that stream is accepted
independently of stream mode fails: the output slot stays empty after a
stream reply. An error reply on the output channel changes nothing at
all — in particular it does not abort the submission. -/
theorem c9_counterexample :
    replySuccessful
      { expectedId := 1, thatId := 1, codeString := "x", shellOnly := false
        expectStreamIndex := 0, expectJSON := true, hasCell := true } "stream" = false ∧
    (subStep
        (initSub { expectedId := 1, thatId := 1, codeString := "x", shellOnly := false
                   expectStreamIndex := 0, expectJSON := true, hasCell := true })
        (.outputReply { msg_type := "stream", textPlain := none, text := "out"
                        parsed := none })).solution.output = some none ∧
    (subStep
        (initSub { expectedId := 1, thatId := 1, codeString := "x", shellOnly := false
                   expectStreamIndex := 0, expectJSON := true, hasCell := true })
        (.outputReply { msg_type := "error", textPlain := none, text := ""
                        parsed := none })) =
      initSub { expectedId := 1, thatId := 1, codeString := "x", shellOnly := false
                expectStreamIndex := 0, expectJSON := true, hasCell := true } :=
  ⟨rfl, rfl, rfl⟩

/-- C9, amended: outside stream mode exactly the execute_result kind is
accepted and stored in the output slot; stream joins the acceptable
kinds only when expectStreamIndex is set; and an error reply on the
output channel is ignored by the output handler entirely (abort on
failure happens only through the completion reply status, line 214). -/
theorem c9_output_acceptance (s : SubState) (m : OutputMsg)
    (hG : s.cfg.expectedId = s.cfg.thatId) (hSh : s.cfg.shellOnly = false) :
    (s.cfg.expectStreamIndex = 0 → s.solution.output = some none →
      (((subStep s (.outputReply m)).solution.output ≠ some none) ↔
        m.msg_type = "execute_result")) ∧
    (∀ k : Nat, k ≠ 0 →
      successReplies { s.cfg with expectStreamIndex := k } =
        ["execute_result", "stream"]) ∧
    (m.msg_type = "error" → subStep s (.outputReply m) = s) := by
  refine ⟨?_, ?_, ?_⟩
  · intro hidx hout
    by_cases hm : m.msg_type = "execute_result"
    · have hrs : replySuccessful s.cfg m.msg_type = true := by
        simp [replySuccessful, successReplies, hidx, hm]
      constructor
      · intro _; exact hm
      · intro _
        simp only [subStep, outputReplyStep]
        rw [if_neg (by simp [hSh]), if_neg (by simp [hG]), if_pos hrs,
          if_neg (by simp [hidx])]
        simp
    · have hrs : replySuccessful s.cfg m.msg_type = false := by
        simp [replySuccessful, successReplies, hidx, hm]
      constructor
      · intro hne
        exfalso
        apply hne
        simp only [subStep, outputReplyStep]
        rw [if_neg (by simp [hSh]), if_neg (by simp [hG]), if_neg (by simp [hrs])]
        exact hout
      · intro h; exact absurd h hm
  · intro k hk
    simp [successReplies, hk]
  · intro herr
    have hrs : replySuccessful s.cfg "error" = false := by
      unfold replySuccessful successReplies
      split <;> rfl
    simp only [subStep, outputReplyStep]
    rw [if_neg (by simp [hSh]), if_neg (by simp [hG]), if_neg (by simp [herr, hrs])]

/-- Witness for C9: a concrete execute_result reply outside stream mode
fills the output slot. -/
theorem c9_witness :
    (subStep
        (initSub { expectedId := 1, thatId := 1, codeString := "x", shellOnly := false
                   expectStreamIndex := 0, expectJSON := true, hasCell := true })
        (.outputReply { msg_type := "execute_result", textPlain := some "1", text := ""
                        parsed := none })).solution.output ≠ some none :=
  ((c9_output_acceptance
      (initSub { expectedId := 1, thatId := 1, codeString := "x", shellOnly := false
                 expectStreamIndex := 0, expectJSON := true, hasCell := true })
      { msg_type := "execute_result", textPlain := some "1", text := "", parsed := none }
      rfl rfl).1 rfl rfl).mpr rfl

/-- C1: the stale-reply guard is dead code. For every submission the
guard value expectedId equals the frozen thatId copy taken by the
object spread one line later, so the guard never fires. In the concrete
two-submission scenario the first submission is stale (its expectedId 1
differs from the live instance id 2 after the second submission), yet
delivering its completion reply still runs the callback body: the stale
submission's own solution record is mutated and its deferred settles.
The reply is processed, not discarded. The active submission's solution
record is a distinct closure value, so it is untouched — but only
because each executePythonCodeInBackground call closes over its own
record, not because of the guard. -/
theorem c1_stale_reply_not_discarded :
    (∀ (w : Nat) (inst : KernelInstance),
      (mkSubConfig w inst).1.expectedId = (mkSubConfig w inst).1.thatId) ∧
    c1First.1.expectedId ≠ c1Second.2.2.uid ∧
    c1First.1.expectedId = c1First.1.thatId ∧
    (subStep (initSub c1First.1) (.shellReply okReply)).solution.shell = some okReply ∧
    (subStep (initSub c1First.1) (.shellReply okReply)).promise =
      .resolved { code := "x", shell := some okReply, output := none } := by
  refine ⟨?_, ?_, ?_, ?_, ?_⟩
  · intro w inst; rfl
  · decide
  · rfl
  · rfl
  · rfl

/-- applySameOnEachElement registers one continuation per element, all
on the promise that this.command held at call time, in collection
order, and leaves the command field unchanged (the forEach of line 403
is synchronous and then only reads this.command). -/
theorem applySame_regs (xs : List Nat) : ∀ m : SeqInstance,
    (applySameOnEachElement m xs).command = m.command ∧
    (applySameOnEachElement m xs).regs =
      m.regs ++ xs.map (fun x => (m.command, x)) := by
  induction xs with
  | nil => intro m; simp [applySameOnEachElement]
  | cons x rest ih =>
    intro m
    rw [applySameOnEachElement, List.foldl_cons]
    have h := ih (thenReg m x)
    rw [applySameOnEachElement] at h
    constructor
    · rw [h.1]; rfl
    · rw [h.2]
      simp [thenReg]

/-- On a fresh instance whose command promise is 0, the continuations
registered on promise 0 are exactly the elements, in order. -/
theorem contsOn_applySame (xs : List Nat) :
    contsOn (applySameOnEachElement ⟨0, []⟩ xs) 0 = xs := by
  have h := applySame_regs xs ⟨0, []⟩
  rw [contsOn, h.2]
  simp [List.filter_map, Function.comp]

/-- One unfolding of runLoop. -/
theorem runLoop_succ (n : Nat) (s : LoopState) :
    runLoop (n + 1) s = runLoop n (loopStep s) := rfl

/-- runLoop splits over addition. -/
theorem runLoop_add (a b : Nat) : ∀ s, runLoop (a + b) s = runLoop b (runLoop a s) := by
  induction a with
  | zero => intro s; rw [Nat.zero_add]; rfl
  | succ a ih =>
    intro s
    have harith : a + 1 + b = (a + b) + 1 := by omega
    rw [harith, runLoop_succ, ih (loopStep s)]
    rfl

/-- Microtask phase: with continuations queued, the scheduler runs them
all back to back, logging one invocation per element and queueing one
kernel-reply macrotask per element, before any macrotask runs. -/
theorem runLoop_micro (q : List Nat) : ∀ (tasks : List Nat) (log : List Obs),
    runLoop q.length ⟨q, tasks, log⟩ =
      ⟨[], tasks ++ q, log ++ q.map Obs.invoked⟩ := by
  induction q with
  | nil => intro tasks log; simp [runLoop]
  | cons e q ih =>
    intro tasks log
    rw [List.length_cons, runLoop_succ]
    have hstep : loopStep ⟨e :: q, tasks, log⟩ =
        ⟨q, tasks ++ [e], log ++ [Obs.invoked e]⟩ := rfl
    rw [hstep, ih]
    simp

/-- Macrotask phase: with the microtask queue empty, the queued kernel
replies settle the dispatched submissions in order. -/
theorem runLoop_tasks (q : List Nat) : ∀ (log : List Obs),
    runLoop q.length ⟨[], q, log⟩ = ⟨[], [], log ++ q.map Obs.settledSub⟩ := by
  induction q with
  | nil => intro log; simp [runLoop]
  | cons r q ih =>
    intro log
    rw [List.length_cons, runLoop_succ]
    have hstep : loopStep ⟨[], r :: q, log⟩ = ⟨[], q, log ++ [Obs.settledSub r]⟩ := rfl
    rw [hstep, ih]
    simp

/-- C5, amended: when the command promise the continuations were
registered on settles, the per-element callback is invoked for every
element in collection order, back to back; the submissions the
callbacks dispatch all settle only afterwards. So invocation order is
preserved, but the callback for a later element does not wait for the
earlier element's submission to settle. -/
theorem c5_invocation_order (xs : List Nat) :
    (runLoop (xs.length + xs.length)
        (initLoop (applySameOnEachElement ⟨0, []⟩ xs) 0)).log =
      xs.map Obs.invoked ++ xs.map Obs.settledSub := by
  have hc : initLoop (applySameOnEachElement ⟨0, []⟩ xs) 0 =
      ⟨xs, [], []⟩ := by
    rw [initLoop, contsOn_applySame]
  rw [hc, runLoop_add xs.length xs.length, runLoop_micro xs [] []]
  simp only [List.nil_append]
  rw [runLoop_tasks xs (xs.map Obs.invoked)]

/-- C5, counterexample: for the two-element collection the full
observation log is invoke-first, invoke-second, settle-first,
settle-second: the second element's callback runs in the first two
observations, before the first element's submission has settled,
contradicting the claim that the second invocation waits for the first
settlement. -/
theorem c5_counterexample :
    (runLoop 4 (initLoop (applySameOnEachElement ⟨0, []⟩ [10, 20]) 0)).log =
      [Obs.invoked 10, Obs.invoked 20, Obs.settledSub 10, Obs.settledSub 20] ∧
    Obs.invoked 20 ∈
      ((runLoop 4 (initLoop (applySameOnEachElement ⟨0, []⟩ [10, 20]) 0)).log.take 2) ∧
    Obs.settledSub 10 ∉
      ((runLoop 4 (initLoop (applySameOnEachElement ⟨0, []⟩ [10, 20]) 0)).log.take 2) :=
  ⟨rfl, by decide, by decide⟩

/-- C10: an interval callback that finds every doneFlag true while the
awaitAll promise is pending resolves it and leaves every participating
doneFlag false: the flags are reset before resolution, making the
instances reusable for a later flagged join. -/
theorem c10_flags_reset_on_resolve (s : AwaitAllState)
    (hAct : s.intervalActive = true) (hPend : s.result = .pending)
    (hReady : s.flags.all (fun b => b) = true) :
    (awaitAllTick s).result = .resolvedInstances ∧
    (awaitAllTick s).flags.all (fun b => !b) = true := by
  unfold awaitAllTick
  rw [if_pos hAct]
  simp only [hReady, hPend, if_true, settleAwait]
  split <;> constructor <;> simp [settleAwait, List.all_map]

/-- Witness for C10 at a concrete two-instance state. -/
theorem c10_witness :
    (awaitAllTick { flags := [true, true], retryCount := 7, intervalActive := true
                    result := .pending }).result = .resolvedInstances ∧
    (awaitAllTick { flags := [true, true], retryCount := 7, intervalActive := true
                    result := .pending }).flags.all (fun b => !b) = true :=
  c10_flags_reset_on_resolve
    { flags := [true, true], retryCount := 7, intervalActive := true, result := .pending }
    rfl rfl rfl
